import Mathlib

/-!
Shallow embedding of `src/webpack.config.js` from the repository
`babel-es6-webpack-bolierplate-x`.

The source file exports a single arrow function
`module.exports = (env = DEFAULT_ENV) => ({ ... })` that reads the ambient
`process.env.NODE_ENV` variable and the `env` override record, and returns a
webpack configuration object.  We model:

  * JavaScript values relevant to the inputs (`JSValue`) together with
    JavaScript truthiness and property access (which throws a `TypeError`
    on `null`/`undefined` receivers, and yields `undefined` otherwise when
    the property is missing);
  * the configuration record (`Config`) with the fields the source builds:
    `context`, `devtool`, `entry`, module `rules`, `output`, `plugins`,
    `resolve`;
  * the plugin constructor calls as an inductive `Plugin` carrying exactly
    the option records the source passes;
  * the exported function `webpackExport`, whose only fallible step is the
    property access `env.report` (everything else in the returned object
    literal is built from constants and the captured `NODE_ENV`).

`path.resolve(__dirname, x)` / `path.join(__dirname, x)` are modelled on the
concrete arguments the source uses, with the ambient directory abstracted as
the marker string `DIRNAME`.
-/

namespace WebpackConfig

/-- JavaScript values, as far as the configuration's inputs need them. -/
inductive JSValue where
  | undefined
  | null
  | bool (b : Bool)
  | num (n : Int)
  | str (s : String)
  | obj (fields : List (String × JSValue))

/-- JavaScript truthiness (we do not model `NaN`; numbers are integers). -/
def truthy : JSValue → Bool
  | JSValue.undefined => false
  | JSValue.null => false
  | JSValue.bool b => b
  | JSValue.num n => n != 0
  | JSValue.str s => s != ""
  | JSValue.obj _ => true

/-- Error message for property access on `null`. -/
def TYPE_ERROR_NULL : String := "TypeError: Cannot read property of null"

/-- Error message for property access on `undefined`. -/
def TYPE_ERROR_UNDEFINED : String := "TypeError: Cannot read property of undefined"

/-- JavaScript property access `v.key`: throws on `null`/`undefined`
receivers, looks the key up on objects (missing keys give `undefined`), and
gives `undefined` on other primitives (none of which has own properties the
source reads). -/
def getField : JSValue → String → Except String JSValue
  | JSValue.null, _ => Except.error TYPE_ERROR_NULL
  | JSValue.undefined, _ => Except.error TYPE_ERROR_UNDEFINED
  | JSValue.obj fields, key => Except.ok ((fields.lookup key).getD JSValue.undefined)
  | _, _ => Except.ok JSValue.undefined

/-- `const PRODUCTION = 'production';` (line 27). -/
def PRODUCTION : String := "production"

/-- `const DEVELOPMENT = 'development';` (line 33). -/
def DEVELOPMENT : String := "development"

/-- `const DEFAULT_EXCLUDE_RX = /node_modules/;` (line 39): the regex is
modelled by its source pattern. -/
def DEFAULT_EXCLUDE_RX : String := "node_modules"

/-- `const WHATWG_FETCH = ...` (line 50): the loader specification string for
the fetch polyfill. -/
def WHATWG_FETCH : String :=
  "imports-loader?this=>global!exports-loader?global.fetch!whatwg-fetch"

/-- `const DEFAULT_ENV = { report: false };` (lines 52-54). -/
def DEFAULT_ENV : JSValue := JSValue.obj [("report", JSValue.bool false)]

/-- The resolved build mode of the spec's data model: exactly two variants. -/
inductive Mode where
  | development
  | production
deriving DecidableEq

/-- Mode resolution: the source compares the ambient `NODE_ENV` signal with
the production sentinel (`NODE_ENV === PRODUCTION`, lines 84 and 223; the
spec's `EnvironmentResolver`).  An absent signal is `none`. -/
def resolveMode (nodeEnv : Option String) : Mode :=
  if nodeEnv = some PRODUCTION then Mode.production else Mode.development

/-- The normalized mode string the resolver produces. -/
def modeString : Mode → String
  | Mode.production => PRODUCTION
  | Mode.development => DEVELOPMENT

/-- `eslint-loader` options (lines 120-127). -/
structure EslintOptions where
  emitError : Bool
  emitWarning : Bool
  failOnError : Bool
  failOnWarning : Bool
  formatter : String
  quiet : Bool
deriving DecidableEq

/-- The option record of the `env` preset of `babel-loader`
(lines 141-146). -/
structure BabelEnvPresetConfig where
  modules : Bool
  targetsNode : Nat
deriving DecidableEq

/-- `babel-loader` options (lines 139-147). -/
structure BabelOptions where
  plugins : List String
  presets : List (String × BabelEnvPresetConfig)
deriving DecidableEq

/-- The two shapes of rule options the source constructs. -/
inductive RuleOptions where
  | eslint (opts : EslintOptions)
  | babel (opts : BabelOptions)
deriving DecidableEq

/-- A webpack module rule as the source builds it: regexes are modelled by
their source patterns, a missing `enforce` key means the normal stage. -/
structure Rule where
  enforce : Option String
  exclude : String
  loader : String
  options : RuleOptions
  test : String
deriving DecidableEq

/-- The lint rule (lines 116-129). -/
def eslintRule : Rule :=
  { enforce := some "pre"
    exclude := DEFAULT_EXCLUDE_RX
    loader := "eslint-loader"
    options := RuleOptions.eslint
      { emitError := true
        emitWarning := false
        failOnError := true
        failOnWarning := false
        formatter := "eslintFriendlyFormatter"
        quiet := true }
    test := "\\.(js|json)$" }

/-- The Babel transform rule (lines 136-149). -/
def babelRule : Rule :=
  { enforce := none
    exclude := DEFAULT_EXCLUDE_RX
    loader := "babel-loader"
    options := RuleOptions.babel
      { plugins := ["lodash"]
        presets := [("env", { modules := false, targetsNode := 8 })] }
    test := "\\.js$" }

/-- `module.rules` (lines 110-150): a fixed two-element list, independent of
any environment input. -/
def moduleRules : List Rule := [eslintRule, babelRule]

/-- `UglifyJsPlugin` options (lines 224-228). -/
structure UglifyConfig where
  parallel : Bool
  sourceMap : Bool
  ecma : Nat
deriving DecidableEq

/-- The plugin constructor calls of the source, each carrying the option
record passed at its `new` site. -/
inductive Plugin where
  | environmentPlugin (debug : Bool) (nodeEnvDefault : String)
  | providePlugin (mappings : List (String × String))
  | lodashModuleReplacementPlugin (paths : Bool)
  | uglifyJsPlugin (opts : UglifyConfig)
  | bundleAnalyzerPlugin
deriving DecidableEq

/-- `new webpack.EnvironmentPlugin({ DEBUG: false, NODE_ENV: DEVELOPMENT })`
(lines 193-196). -/
def environmentPluginInstance : Plugin :=
  Plugin.environmentPlugin false DEVELOPMENT

/-- `new webpack.ProvidePlugin({ fetch: ..., 'window.fetch': ... })`
(lines 204-207). -/
def providePluginInstance : Plugin :=
  Plugin.providePlugin [("fetch", WHATWG_FETCH), ("window.fetch", WHATWG_FETCH)]

/-- `new LodashModuleReplacementPlugin({ paths: true })` (lines 214-216). -/
def lodashPluginInstance : Plugin :=
  Plugin.lodashModuleReplacementPlugin true

/-- `new webpack.optimize.UglifyJsPlugin({...})` (lines 223-229). -/
def uglifyPluginInstance : Plugin :=
  Plugin.uglifyJsPlugin { parallel := true, sourceMap := true, ecma := 8 }

/-- The `plugins` array (lines 187-238): three unconditional entries, then
the spread `...(NODE_ENV === PRODUCTION ? [uglify] : [])`, then the spread
`...(env.report ? [analyzer] : [])` where `env.report` is a JavaScript
truthiness test on the report value. -/
def pluginsList (nodeEnv : Option String) (report : JSValue) : List Plugin :=
  [environmentPluginInstance, providePluginInstance, lodashPluginInstance]
    ++ (if nodeEnv = some PRODUCTION then [uglifyPluginInstance] else [])
    ++ (if truthy report then [Plugin.bundleAnalyzerPlugin] else [])

/-- Recognizer for the minification plugin. -/
def isUglify : Plugin → Bool
  | Plugin.uglifyJsPlugin _ => true
  | _ => false

/-- Recognizer for the bundle-analysis plugin. -/
def isAnalyzer : Plugin → Bool
  | Plugin.bundleAnalyzerPlugin => true
  | _ => false

/-- Recognizer for the lodash size-reduction plugin. -/
def isLodash : Plugin → Bool
  | Plugin.lodashModuleReplacementPlugin _ => true
  | _ => false

/-- Recognizer for the provide (fetch polyfill) plugin. -/
def isProvide : Plugin → Bool
  | Plugin.providePlugin _ => true
  | _ => false

/-- The `output` record (lines 171-176). -/
structure Output where
  filename : String
  library : String
  libraryTarget : String
  path : String
deriving DecidableEq

/-- The `resolve` record (lines 245-256). -/
structure ResolveSpec where
  aliases : List (String × String)
  extensions : List String
deriving DecidableEq

/-- The configuration record the exported function returns, with the fields
the source constructs. -/
structure Config where
  context : String
  devtool : String
  entry : List String
  rules : List Rule
  output : Output
  plugins : List Plugin
  resolve : ResolveSpec

/-- The ambient `__dirname`, abstracted as a marker string. -/
def DIRNAME : String := "__dirname"

/-- `path.resolve(__dirname, rel)` for the relative segments the source uses
(`'.'` resolves to the directory itself). -/
def pathResolve (dir : String) (rel : String) : String :=
  if rel = "." then dir else dir ++ "/" ++ rel

/-- `path.join(__dirname, rel)` for the segments the source uses. -/
def pathJoin (dir : String) (rel : String) : String := dir ++ "/" ++ rel

/-- The returned object literal (lines 63-257), given the captured
`NODE_ENV` and the already-read `env.report` value. -/
def buildConfig (nodeEnv : Option String) (report : JSValue) : Config :=
  { context := pathResolve DIRNAME "."
    devtool := if nodeEnv = some PRODUCTION then "source-map" else "eval-source-map"
    entry := [pathJoin DIRNAME "src/index.js"]
    rules := moduleRules
    output :=
      { filename := "index.js"
        library := "returnExports"
        libraryTarget := "umd"
        path := pathResolve DIRNAME "dist" }
    plugins := pluginsList nodeEnv report
    resolve :=
      { aliases := [("RootDir", pathResolve DIRNAME "."), ("src", pathResolve DIRNAME "src")]
        extensions := [".js", ".json"] } }

/-- JavaScript default-parameter semantics of `(env = DEFAULT_ENV) => ...`:
the default applies when the argument is absent or `undefined`. -/
def resolvedEnv : Option JSValue → JSValue
  | none => DEFAULT_ENV
  | some JSValue.undefined => DEFAULT_ENV
  | some v => v

/-- `module.exports = (env = DEFAULT_ENV) => ({...})` (line 62): the ambient
`NODE_ENV` is the first argument, the caller-supplied override record the
second.  The only fallible evaluation in the returned object literal is the
property access `env.report` (line 237). -/
def webpackExport (nodeEnv : Option String) (envArg : Option JSValue) :
    Except String Config :=
  match getField (resolvedEnv envArg) "report" with
  | Except.error e => Except.error e
  | Except.ok r => Except.ok (buildConfig nodeEnv r)

/-! ### Helper lemmas -/

/-- A successful call returns the object literal built from the report value
read off the resolved `env` record. -/
lemma webpackExport_ok {nodeEnv : Option String} {envArg : Option JSValue}
    {cfg : Config} (h : webpackExport nodeEnv envArg = Except.ok cfg) :
    ∃ r, getField (resolvedEnv envArg) "report" = Except.ok r ∧
      cfg = buildConfig nodeEnv r := by
  unfold webpackExport at h
  split at h
  · exact absurd h (by simp)
  · next r hg =>
    refine ⟨r, hg, ?_⟩
    injection h with h
    exact h.symm

lemma any_isUglify_pluginsList (nodeEnv : Option String) (r : JSValue) :
    (pluginsList nodeEnv r).any isUglify = true ↔ nodeEnv = some PRODUCTION := by
  by_cases hp : nodeEnv = some PRODUCTION <;>
    cases ht : truthy r <;>
      simp [pluginsList, hp, ht, environmentPluginInstance, providePluginInstance,
        lodashPluginInstance, uglifyPluginInstance, isUglify]

lemma any_isAnalyzer_pluginsList (nodeEnv : Option String) (r : JSValue) :
    (pluginsList nodeEnv r).any isAnalyzer = truthy r := by
  by_cases hp : nodeEnv = some PRODUCTION <;>
    cases ht : truthy r <;>
      simp [pluginsList, hp, ht, environmentPluginInstance, providePluginInstance,
        lodashPluginInstance, uglifyPluginInstance, isAnalyzer]

/-! ### Claims -/

/-- C1: the resolved mode is `Production` exactly when the mode signal
textually equals the production sentinel string; any absent or unrecognized
signal resolves to `Development` (the resolver is a total function, so
resolution never raises an error). -/
theorem c1_mode_resolution (sig : Option String) :
    (resolveMode sig = Mode.production ↔ sig = some PRODUCTION) ∧
    (resolveMode sig = Mode.development ↔ sig ≠ some PRODUCTION) := by
  by_cases h : sig = some PRODUCTION <;> simp [resolveMode, h]

/-- C1 witness at the concrete unrecognized signal `"staging"`. -/
theorem c1_mode_resolution_witness :
    (resolveMode (some "staging") = Mode.production ↔
      (some "staging" : Option String) = some PRODUCTION) ∧
    (resolveMode (some "staging") = Mode.development ↔
      (some "staging" : Option String) ≠ some PRODUCTION) :=
  c1_mode_resolution (some "staging")

/-- C2: over the claim's environment domain (a mode signal and a boolean
report flag), the composed plugin list contains the minification plugin iff
the resolved mode is `Production` and the bundle-analysis plugin iff the
report flag is `true`; the two gates are independent, so all four presence
combinations are reachable. -/
theorem c2_conditional_plugins :
    (∀ (sig : Option String) (b : Bool) (cfg : Config),
        webpackExport sig (some (JSValue.obj [("report", JSValue.bool b)])) =
          Except.ok cfg →
        ((cfg.plugins.any isUglify = true ↔ resolveMode sig = Mode.production) ∧
         (cfg.plugins.any isAnalyzer = true ↔ b = true))) ∧
    (∀ u a : Bool, ∃ (sig : Option String) (b : Bool) (cfg : Config),
        webpackExport sig (some (JSValue.obj [("report", JSValue.bool b)])) =
          Except.ok cfg ∧
        cfg.plugins.any isUglify = u ∧ cfg.plugins.any isAnalyzer = a) := by
  constructor
  · intro sig b cfg h
    obtain ⟨r, hg, rfl⟩ := webpackExport_ok h
    have hr : r = JSValue.bool b := by
      have := hg
      simp [getField, resolvedEnv] at this
      exact this.symm
    subst hr
    constructor
    · rw [show (buildConfig sig (JSValue.bool b)).plugins = pluginsList sig (JSValue.bool b) from rfl,
        any_isUglify_pluginsList]
      by_cases hp : sig = some PRODUCTION <;> simp [resolveMode, hp]
    · rw [show (buildConfig sig (JSValue.bool b)).plugins = pluginsList sig (JSValue.bool b) from rfl,
        any_isAnalyzer_pluginsList]
      cases b <;> simp [truthy]
  · intro u a
    cases u <;> cases a
    · exact ⟨none, false, _, rfl, rfl, rfl⟩
    · exact ⟨none, true, _, rfl, rfl, rfl⟩
    · exact ⟨some PRODUCTION, false, _, rfl, rfl, rfl⟩
    · exact ⟨some PRODUCTION, true, _, rfl, rfl, rfl⟩

/-- C2 witness at the concrete input `NODE_ENV = "production"`,
`report = true`. -/
theorem c2_conditional_plugins_witness :
    ((buildConfig (some "production") (JSValue.bool true)).plugins.any isUglify = true ↔
      resolveMode (some "production") = Mode.production) ∧
    ((buildConfig (some "production") (JSValue.bool true)).plugins.any isAnalyzer = true ↔
      true = true) :=
  c2_conditional_plugins.1 (some "production") true _ rfl

lemma pluginsList_positions (nodeEnv : Option String) (r : JSValue) :
    (pluginsList nodeEnv r).take 3 =
      [environmentPluginInstance, providePluginInstance, lodashPluginInstance] ∧
    (uglifyPluginInstance ∈ pluginsList nodeEnv r →
      3 ≤ (pluginsList nodeEnv r).indexOf uglifyPluginInstance) ∧
    (Plugin.bundleAnalyzerPlugin ∈ pluginsList nodeEnv r →
      3 ≤ (pluginsList nodeEnv r).indexOf Plugin.bundleAnalyzerPlugin) ∧
    (uglifyPluginInstance ∈ pluginsList nodeEnv r →
      Plugin.bundleAnalyzerPlugin ∈ pluginsList nodeEnv r →
      (pluginsList nodeEnv r).indexOf uglifyPluginInstance <
        (pluginsList nodeEnv r).indexOf Plugin.bundleAnalyzerPlugin) := by
  by_cases hp : nodeEnv = some PRODUCTION <;>
    cases ht : truthy r <;>
      · simp only [pluginsList, hp, ht, if_pos, if_neg, if_true, if_false]
        decide

/-- C3: the composed plugin list begins with the environment-variable
injection, fetch-provisioning and lodash size-reduction plugins in that fixed
order; any active conditional plugin sits at a position at least 3, and when
both conditional plugins are active the minification plugin strictly precedes
the bundle-analysis plugin. -/
theorem c3_plugin_order (sig : Option String) (envArg : Option JSValue)
    (cfg : Config) (h : webpackExport sig envArg = Except.ok cfg) :
    cfg.plugins.take 3 =
      [environmentPluginInstance, providePluginInstance, lodashPluginInstance] ∧
    (uglifyPluginInstance ∈ cfg.plugins →
      3 ≤ cfg.plugins.indexOf uglifyPluginInstance) ∧
    (Plugin.bundleAnalyzerPlugin ∈ cfg.plugins →
      3 ≤ cfg.plugins.indexOf Plugin.bundleAnalyzerPlugin) ∧
    (uglifyPluginInstance ∈ cfg.plugins →
      Plugin.bundleAnalyzerPlugin ∈ cfg.plugins →
      cfg.plugins.indexOf uglifyPluginInstance <
        cfg.plugins.indexOf Plugin.bundleAnalyzerPlugin) := by
  obtain ⟨r, _, rfl⟩ := webpackExport_ok h
  exact pluginsList_positions sig r

/-- C3 witness at the concrete input `NODE_ENV = "production"`,
`env = { report: true }`, where both conditional plugins are active. -/
theorem c3_plugin_order_witness :
    (buildConfig (some "production") (JSValue.bool true)).plugins.indexOf
        uglifyPluginInstance <
      (buildConfig (some "production") (JSValue.bool true)).plugins.indexOf
        Plugin.bundleAnalyzerPlugin :=
  (c3_plugin_order (some "production")
      (some (JSValue.obj [("report", JSValue.bool true)])) _ rfl).2.2.2
    (by decide) (by decide)

/-- C4: for every input, the rule list has exactly two entries: the lint rule
at position 0 with the pre stage, failing hard on lint errors and ignoring
lint warnings, and the Babel transform rule at position 1 with the normal
stage (no `enforce` key); both exclude the same dependency-directory
pattern. -/
theorem c4_rule_set (sig : Option String) (envArg : Option JSValue)
    (cfg : Config) (h : webpackExport sig envArg = Except.ok cfg) :
    cfg.rules.length = 2 ∧
    cfg.rules[0]? = some eslintRule ∧
    cfg.rules[1]? = some babelRule ∧
    eslintRule.enforce = some "pre" ∧
    babelRule.enforce = none ∧
    (∃ o, eslintRule.options = RuleOptions.eslint o ∧
      o.failOnError = true ∧ o.failOnWarning = false) ∧
    eslintRule.exclude = babelRule.exclude := by
  obtain ⟨r, _, rfl⟩ := webpackExport_ok h
  exact ⟨rfl, rfl, rfl, rfl, rfl, ⟨_, rfl, rfl, rfl⟩, rfl⟩

/-- C4 witness at the concrete input `NODE_ENV` absent, `env` absent. -/
theorem c4_rule_set_witness :
    (buildConfig none (JSValue.bool false)).rules.length = 2 ∧
    (buildConfig none (JSValue.bool false)).rules[0]? = some eslintRule :=
  ⟨(c4_rule_set none none _ rfl).1, (c4_rule_set none none _ rfl).2.1⟩

/-- C5: the source-map mode of the assembled configuration is a function of
the resolved mode only: the full external mode `source-map` in `Production`
and the inline evaluated mode `eval-source-map` in `Development`. -/
theorem c5_devtool (sig : Option String) (envArg : Option JSValue)
    (cfg : Config) (h : webpackExport sig envArg = Except.ok cfg) :
    (resolveMode sig = Mode.production → cfg.devtool = "source-map") ∧
    (resolveMode sig = Mode.development → cfg.devtool = "eval-source-map") := by
  obtain ⟨r, _, rfl⟩ := webpackExport_ok h
  by_cases hp : sig = some PRODUCTION <;>
    simp [buildConfig, resolveMode, hp]

/-- C5 witness: with `NODE_ENV = "production"` the devtool is the external
source-map mode. -/
theorem c5_devtool_witness :
    (buildConfig (some "production") (JSValue.bool false)).devtool = "source-map" :=
  (c5_devtool (some "production") none _ rfl).1 rfl

/-- C6 counterexample: supplying JavaScript `null` as the override record
makes assembly raise a `TypeError` (the default parameter only replaces an
absent or `undefined` argument, so `env.report` is read off `null`), refuting
totality over every supplied value. -/
theorem c6_totality_counterexample :
    webpackExport none (some JSValue.null) = Except.error TYPE_ERROR_NULL := rfl

/-- C6 (amended): assembly completes and returns a configuration record for
an absent override record and for every supplied override value other than
JavaScript `null`. -/
theorem c6_totality (sig : Option String) (envArg : Option JSValue)
    (h : envArg ≠ some JSValue.null) :
    ∃ cfg, webpackExport sig envArg = Except.ok cfg := by
  match envArg with
  | none => exact ⟨_, rfl⟩
  | some JSValue.undefined => exact ⟨_, rfl⟩
  | some JSValue.null => exact absurd rfl h
  | some (JSValue.bool b) => exact ⟨_, rfl⟩
  | some (JSValue.num n) => exact ⟨_, rfl⟩
  | some (JSValue.str s) => exact ⟨_, rfl⟩
  | some (JSValue.obj fields) => exact ⟨_, rfl⟩

/-- C6 witness at the concrete input where both arguments are absent. -/
theorem c6_totality_witness :
    ∃ cfg, webpackExport none none = Except.ok cfg :=
  c6_totality none none (by simp)

/-- C7 counterexample: with the non-boolean truthy report value `"yes"` the
bundle-analysis plugin is included even though the input did not set `report`
to the boolean `true` (the source gates on JavaScript truthiness, line 237),
refuting inclusion only for the explicit boolean `true`. -/
theorem c7_report_counterexample :
    (webpackExport none (some (JSValue.obj [("report", JSValue.str "yes")]))).map
        (fun cfg => cfg.plugins.any isAnalyzer) = Except.ok true ∧
    JSValue.str "yes" ≠ JSValue.bool true := by
  constructor
  · rfl
  · simp

/-- C7 (amended): the report gate follows JavaScript truthiness of the value
stored under `report` on the resolved override record: the bundle-analysis
plugin is included iff that value is truthy (so for the booleans exactly for
`true`, but also for truthy non-booleans such as nonempty strings). -/
theorem c7_report_truthiness (sig : Option String) (envArg : Option JSValue)
    (r : JSValue) (cfg : Config)
    (hg : getField (resolvedEnv envArg) "report" = Except.ok r)
    (h : webpackExport sig envArg = Except.ok cfg) :
    cfg.plugins.any isAnalyzer = true ↔ truthy r = true := by
  obtain ⟨r2, hg2, rfl⟩ := webpackExport_ok h
  have hr : r2 = r := by
    rw [hg] at hg2
    injection hg2 with h2
    exact h2.symm
  subst hr
  rw [show (buildConfig sig r2).plugins = pluginsList sig r2 from rfl,
    any_isAnalyzer_pluginsList]

/-- C7 witness at the concrete truthy string input `"yes"`. -/
theorem c7_report_truthiness_witness :
    (buildConfig none (JSValue.str "yes")).plugins.any isAnalyzer = true ↔
      truthy (JSValue.str "yes") = true :=
  c7_report_truthiness none (some (JSValue.obj [("report", JSValue.str "yes")]))
    (JSValue.str "yes") _ rfl rfl

/-- C8 counterexample: with the mode signal `"production"` the resolver
produces the mode string `"production"`, but the environment-variable
injection plugin in the composed configuration carries the constant
`"development"` (line 195), refuting the claim that it carries the resolved
mode string. -/
theorem c8_env_plugin_counterexample :
    (webpackExport (some "production") none).map (fun cfg => cfg.plugins.head?) =
      Except.ok (some (Plugin.environmentPlugin false "development")) ∧
    modeString (resolveMode (some "production")) = "production" ∧
    ("development" : String) ≠ "production" := by
  refine ⟨rfl, rfl, ?_⟩
  decide

/-- C8 (amended): for every input the environment-variable injection plugin
is the first composed plugin and carries the debug flag `false` and the
constant development sentinel string as its mode default, independent of the
resolved mode (so it coincides with the resolved mode string only in
`Development` mode). -/
theorem c8_env_plugin (sig : Option String) (envArg : Option JSValue)
    (cfg : Config) (h : webpackExport sig envArg = Except.ok cfg) :
    cfg.plugins.head? = some (Plugin.environmentPlugin false DEVELOPMENT) := by
  obtain ⟨r, _, rfl⟩ := webpackExport_ok h
  rfl

/-- C8 witness at the concrete input `NODE_ENV = "production"`. -/
theorem c8_env_plugin_witness :
    (buildConfig (some "production") (JSValue.bool false)).plugins.head? =
      some (Plugin.environmentPlugin false DEVELOPMENT) :=
  c8_env_plugin (some "production") none _ rfl

/-- C9: for every input the lodash size-reduction plugin occurs in the
composed plugin list, exactly once, constructed with its `paths` option set
to `true`. -/
theorem c9_lodash_plugin (sig : Option String) (envArg : Option JSValue)
    (cfg : Config) (h : webpackExport sig envArg = Except.ok cfg) :
    cfg.plugins.filter isLodash = [Plugin.lodashModuleReplacementPlugin true] := by
  obtain ⟨r, _, rfl⟩ := webpackExport_ok h
  show (pluginsList sig r).filter isLodash = _
  by_cases hp : sig = some PRODUCTION <;>
    cases ht : truthy r <;>
      · simp only [pluginsList, hp, ht, if_pos, if_neg, if_true, if_false]
        decide

/-- C9 witness at the concrete input where both arguments are absent. -/
theorem c9_lodash_plugin_witness :
    (buildConfig none (JSValue.bool false)).plugins.filter isLodash =
      [Plugin.lodashModuleReplacementPlugin true] :=
  c9_lodash_plugin none none _ rfl

/-- C10: for every input the fetch-polyfill provisioning plugin occurs in the
composed plugin list, exactly once, mapping exactly the two symbols `fetch`
and `window.fetch`, both to the same polyfill loader specification string. -/
theorem c10_provide_plugin (sig : Option String) (envArg : Option JSValue)
    (cfg : Config) (h : webpackExport sig envArg = Except.ok cfg) :
    cfg.plugins.filter isProvide =
      [Plugin.providePlugin [("fetch", WHATWG_FETCH), ("window.fetch", WHATWG_FETCH)]] := by
  obtain ⟨r, _, rfl⟩ := webpackExport_ok h
  show (pluginsList sig r).filter isProvide = _
  by_cases hp : sig = some PRODUCTION <;>
    cases ht : truthy r <;>
      · simp only [pluginsList, hp, ht, if_pos, if_neg, if_true, if_false]
        decide

/-- C10 witness at the concrete input where both arguments are absent. -/
theorem c10_provide_plugin_witness :
    (buildConfig none (JSValue.bool false)).plugins.filter isProvide =
      [Plugin.providePlugin [("fetch", WHATWG_FETCH), ("window.fetch", WHATWG_FETCH)]] :=
  c10_provide_plugin none none _ rfl

end WebpackConfig
